import Mathlib

/-!
# Verification of the flockq task-queue core

A shallow embedding of the flockq coordination core.  The two orchestrators
(`Queue` in `queue.py` and `TaskService` in `task_service.py`) are translated
directly from the source.  The `Task` entity, the repository contract, the
handler registry and the specification predicates live in modules of the
repository that are not part of the sources at hand; they are modelled from
the specification (each such definition says so in its doc comment).

Time instants and durations are modelled as natural numbers; the clock reads
(`self._now()`) inside an orchestrator method become explicit parameters, one
per read, in source order.
-/

set_option autoImplicit false

namespace Flockq

/-- Task lifecycle states.  Modelled from the spec: `state` is one of
`Pending | Active | Completed | Failed` (task.py is not among the sources). -/
inductive TaskState where
  | Pending
  | Active
  | Completed
  | Failed
  deriving DecidableEq, Repr

/-- Modelled from the spec: the retry-policy contract of retry_policy.py,
`next_delay(attempt_count) -> duration` and
`is_exhausted(attempt_count) -> bool`, a pure parameterized function. -/
structure RetryPolicy where
  next_delay : Nat → Nat
  is_exhausted : Nat → Bool

/-- Modelled from the spec: the cleanup-policy contract of cleanup_policy.py,
`is_expired(finished_at, now) -> bool`. -/
structure CleanupPolicy where
  is_expired : Nat → Nat → Bool

/-- Modelled from the spec: the `Task` entity of task.py.  `kind` is optional
because the `Queue` orchestrator creates tasks without a kind while the
`TaskService` orchestrator always supplies one (§9 of the spec). -/
structure Task where
  id : String
  kind : Option String
  args : String
  state : TaskState
  created_at : Nat
  ready_at : Nat
  started_at : Option Nat
  finished_at : Option Nat
  attempt_count : Nat
  last_error : Option String
  retry_policy : RetryPolicy

/-- Errors surfaced by the core.  `TaskHandlerNotFound` carries the kind it
was raised with, as in task_service.py line 89. -/
inductive TaskError where
  | TaskNotFound
  | TaskLocked
  | TaskNotActive
  | TaskNotReady
  | TaskHandlerNotFound (kind : Option String)
  deriving DecidableEq, Repr

/-- Modelled from the spec: `Task.create` of task.py.  For all tasks,
`create_task(args, delay)` yields `state = Pending`,
`ready_at = now + delay`, `attempt_count = 0`. -/
def Task.create (now : Nat) (id : String) (kind : Option String) (args : String)
    (delay : Nat) (retry_policy : RetryPolicy) : Task :=
  { id := id
    kind := kind
    args := args
    state := TaskState.Pending
    created_at := now
    ready_at := now + delay
    started_at := none
    finished_at := none
    attempt_count := 0
    last_error := none
    retry_policy := retry_policy }

/-- Modelled from the spec: `Task.begin_execution(now)` of task.py.  Requires
`state == Pending` else fails with `TaskNotActive`; requires
`ready_at <= now` else fails with `TaskNotReady`.  On success
`state = Active`, `started_at = now`, `attempt_count += 1`. -/
def Task.begin_execution (t : Task) (now : Nat) : Except TaskError Task :=
  if t.state ≠ TaskState.Pending then Except.error TaskError.TaskNotActive
  else if t.ready_at > now then Except.error TaskError.TaskNotReady
  else Except.ok { t with
    state := TaskState.Active
    started_at := some now
    attempt_count := t.attempt_count + 1 }

/-- Modelled from the spec: `Task.end_execution(now, error)` of task.py.
`error = None` gives `Completed` with `finished_at = now`; otherwise the
retry policy is queried with `attempt_count`: exhausted gives `Failed` with
`finished_at = now` and `last_error = error`, not exhausted gives `Pending`
with `ready_at = now + next_delay(attempt_count)` and `last_error = error`. -/
def Task.end_execution (t : Task) (now : Nat) (error : Option String) : Task :=
  match error with
  | none => { t with state := TaskState.Completed, finished_at := some now }
  | some msg =>
    if t.retry_policy.is_exhausted t.attempt_count then
      { t with
        state := TaskState.Failed
        finished_at := some now
        last_error := some msg }
    else
      { t with
        state := TaskState.Pending
        ready_at := now + t.retry_policy.next_delay t.attempt_count
        last_error := some msg }

/-- Modelled from the spec: the `TaskIsExecutable` specification value of
task_specification.py, parameterized by `now` and optional `allowed_kinds`. -/
structure TaskIsExecutable where
  now : Nat
  allowed_kinds : Option (List String) := none

/-- Modelled from the spec: `TaskIsExecutable` is satisfied iff
`state == Pending`, `ready_at <= now`, and (when `allowed_kinds` is given)
`kind in allowed_kinds`. -/
def TaskIsExecutable.is_satisfied_by (s : TaskIsExecutable) (t : Task) : Bool :=
  t.state = TaskState.Pending && t.ready_at ≤ s.now &&
    match s.allowed_kinds with
    | none => true
    | some kinds =>
      match t.kind with
      | none => false
      | some k => kinds.contains k

/-- Modelled from the spec: the `TaskIsDeletable` specification value of
task_specification.py, parameterized by `now` and a cleanup policy. -/
structure TaskIsDeletable where
  now : Nat
  cleanup_policy : CleanupPolicy

/-- Modelled from the spec: `TaskIsDeletable` is satisfied iff
`state in {Completed, Failed}` and the cleanup policy says the task's
`finished_at` is expired at `now`. -/
def TaskIsDeletable.is_satisfied_by (s : TaskIsDeletable) (t : Task) : Bool :=
  (t.state = TaskState.Completed || t.state = TaskState.Failed) &&
    match t.finished_at with
    | none => false
    | some f => s.cleanup_policy.is_expired f s.now

/-- Association-list lookup of a task by id. -/
def findTask : List (String × Task) → String → Option Task
  | [], _ => none
  | (k, t) :: rest, id => if k = id then some t else findTask rest id

/-- Replace the stored task at an id (persisting an update). -/
def setTask : List (String × Task) → String → Task → List (String × Task)
  | [], _, _ => []
  | (k, t) :: rest, id, t' =>
    if k = id then (k, t') :: rest else (k, t) :: setTask rest id t'

/-- Remove the stored task at an id. -/
def removeTask : List (String × Task) → String → List (String × Task)
  | [], _ => []
  | (k, t) :: rest, id =>
    if k = id then removeTask rest id else (k, t) :: removeTask rest id

/-- Modelled from the spec: the `TaskRepository` contract of
task_repository.py — durable storage (`tasks`) plus the per-task exclusive
lock primitive (`locked` is the set of ids whose lock is currently held by
some other execution). -/
structure TaskRepository where
  tasks : List (String × Task)
  locked : List String

/-- Modelled from the spec: `add_task(task)` persists a new task. -/
def TaskRepository.add_task (repo : TaskRepository) (t : Task) : TaskRepository :=
  { repo with tasks := (t.id, t) :: repo.tasks }

/-- Modelled from the spec: `get_task(id)`, failing with `TaskNotFound` when
the id is absent. -/
def TaskRepository.get_task (repo : TaskRepository) (id : String) :
    Except TaskError Task :=
  match findTask repo.tasks id with
  | none => Except.error TaskError.TaskNotFound
  | some t => Except.ok t

/-- Modelled from the spec: `delete_task(id)` removes the task, failing with
`TaskNotFound` when the id is absent; no implicit predicate check. -/
def TaskRepository.delete_task (repo : TaskRepository) (id : String) :
    Except TaskError TaskRepository :=
  match findTask repo.tasks id with
  | none => Except.error TaskError.TaskNotFound
  | some _ => Except.ok { repo with tasks := removeTask repo.tasks id }

/-- Modelled from the spec: `list_tasks(spec)` streams the stored tasks
satisfying the specification predicate. -/
def TaskRepository.list_tasks (repo : TaskRepository) (spec : Task → Bool) :
    List Task :=
  (repo.tasks.map Prod.snd).filter spec

/-- Modelled from the spec: `update_task(id)` used as a scoped exclusive
handle (`with repository.update_task(task_id) as task: ...`).  Acquisition is
immediate and non-blocking: a held lock fails fast with `TaskLocked`, an
absent id with `TaskNotFound`.  The body receives the task and yields the
task state at scope exit together with its outcome (normal return or a fault
propagating out of the scope).  On scope exit — whether normal or due to a
fault — the possibly mutated task is persisted and the lock is released,
unconditionally; hence the repository returned to the caller reflects the
persisted task even when the call also reports an error raised inside the
scope. -/
def TaskRepository.update_task (repo : TaskRepository) (id : String)
    (body : Task → Task × Except TaskError Unit) :
    TaskRepository × Except TaskError Task :=
  if repo.locked.contains id then (repo, Except.error TaskError.TaskLocked)
  else
    match findTask repo.tasks id with
    | none => (repo, Except.error TaskError.TaskNotFound)
    | some task =>
      let r := body task
      let repo' : TaskRepository := { repo with tasks := setTask repo.tasks id r.1 }
      match r.2 with
      | Except.ok _ => (repo', Except.ok r.1)
      | Except.error e => (repo', Except.error e)

/-- A fault raised by a handler or executor: its exception type name, the
formatted stack frames and the message.  The orchestrators only observe it
through `formatExc`. -/
structure Exc where
  typeName : String
  stackFrames : List String
  message : String

/-- Modelled from the Python standard library: `traceback.format_exc()`
renders the in-flight exception as `Traceback (most recent call last):`
followed by the stack frames and the final `type: message` line. -/
def formatExc (e : Exc) : String :=
  "Traceback (most recent call last):\n" ++ String.join e.stackFrames
    ++ e.typeName ++ ": " ++ e.message

/-- A task executor (queue variant): a callable accepting a task, performing
arbitrary work; `none` is a normal return and `some e` a raised fault. -/
def TaskExecutor : Type := Task → Option Exc

/-- Modelled from the spec: a `TaskHandler` of task_handler.py — the
capability to handle a task of a given kind; same fault model as
`TaskExecutor`. -/
structure TaskHandler where
  kind : String
  handle_task : Task → Option Exc

/-- Modelled from the spec: the `TaskHandlerRegistry` of
task_handler_registry.py, mapping a task kind to its handler. -/
structure TaskHandlerRegistry where
  handlers : List (String × TaskHandler)

/-- Modelled from the spec: `register_task_handler(handler)`. -/
def TaskHandlerRegistry.register_task_handler (r : TaskHandlerRegistry)
    (h : TaskHandler) : TaskHandlerRegistry :=
  { r with handlers := (h.kind, h) :: r.handlers }

/-- Lookup in the registry's association list. -/
def findHandler : List (String × TaskHandler) → String → Option TaskHandler
  | [], _ => none
  | (k, h) :: rest, kind => if k = kind then some h else findHandler rest kind

/-- Modelled from the spec: `task_handler(kind)` fails (with `KeyError` in
the source, `none` here) when the kind is unregistered.  A task created by
the queue variant has no kind at all, which no registration can match. -/
def TaskHandlerRegistry.task_handler (r : TaskHandlerRegistry)
    (kind : Option String) : Option TaskHandler :=
  match kind with
  | none => none
  | some k => findHandler r.handlers k

/-- Modelled from the spec: `task_kinds()` — the set of registered kinds. -/
def TaskHandlerRegistry.task_kinds (r : TaskHandlerRegistry) : List String :=
  r.handlers.map Prod.fst

/-- The `Queue` orchestrator of queue.py: repository plus queue-level default
retry policy and cleanup policy. -/
structure Queue where
  task_repository : TaskRepository
  retry_policy : RetryPolicy
  cleanup_policy : CleanupPolicy

/-- `Queue.create_task(args, delay, retry_policy=None)` (queue.py lines
23–43): builds the task via `Task.create` with the supplied retry policy when
one is given and the queue's own otherwise, adds it to the repository and
returns it.  `now` is the creation-time clock read and `id` the fresh uuid. -/
def Queue.create_task (q : Queue) (now : Nat) (id : String) (args : String)
    (delay : Nat) (retry_policy : Option RetryPolicy) : Queue × Task :=
  let task := Task.create now id none args delay
    (match retry_policy with
     | some rp => rp
     | none => q.retry_policy)
  ({ q with task_repository := q.task_repository.add_task task }, task)

/-- `Queue.find_task(task_id)` (queue.py lines 45–51). -/
def Queue.find_task (q : Queue) (task_id : String) : Except TaskError Task :=
  q.task_repository.get_task task_id

/-- `Queue.find_deletable_tasks()` (queue.py lines 53–56). -/
def Queue.find_deletable_tasks (q : Queue) (now : Nat) : List Task :=
  q.task_repository.list_tasks
    (TaskIsDeletable.is_satisfied_by { now := now, cleanup_policy := q.cleanup_policy })

/-- `Queue.delete_task(task_id)` (queue.py lines 58–64): delegates directly
to the repository. -/
def Queue.delete_task (q : Queue) (task_id : String) : Except TaskError Queue :=
  match q.task_repository.delete_task task_id with
  | Except.error e => Except.error e
  | Except.ok repo => Except.ok { q with task_repository := repo }

/-- `Queue.find_executable_tasks()` (queue.py lines 66–71): lists via
`TaskIsExecutable` built from the current time alone. -/
def Queue.find_executable_tasks (q : Queue) (now : Nat) : List Task :=
  q.task_repository.list_tasks
    (TaskIsExecutable.is_satisfied_by { now := now })

/-- `Queue.execute_task(task_id, executor)` (queue.py lines 73–90): inside
the `update_task` scope, `begin_execution` at the first clock read, then the
executor with any fault caught and formatted, then `end_execution` at the
second clock read with the diagnostic (or none), returning the task. -/
def Queue.execute_task (q : Queue) (task_id : String) (executor : TaskExecutor)
    (now₁ now₂ : Nat) : Queue × Except TaskError Task :=
  let r := q.task_repository.update_task task_id (fun task =>
    match task.begin_execution now₁ with
    | Except.error e => (task, Except.error e)
    | Except.ok task' =>
      let error : Option String := (executor task').map formatExc
      (task'.end_execution now₂ error, Except.ok ()))
  ({ q with task_repository := r.1 }, r.2)

/-- The `TaskService` orchestrator of task_service.py: repository plus
handler registry. -/
structure TaskService where
  task_repository : TaskRepository
  task_handler_registry : TaskHandlerRegistry

/-- `TaskService.register_task_handler(task_handler)` (task_service.py lines
24–25). -/
def TaskService.register_task_handler (s : TaskService) (h : TaskHandler) :
    TaskService :=
  { s with task_handler_registry := s.task_handler_registry.register_task_handler h }

/-- `TaskService.create_task(kind, args, delay, retry_policy)`
(task_service.py lines 27–43): the retry policy is a required argument, there
is no service-level default. -/
def TaskService.create_task (s : TaskService) (now : Nat) (id : String)
    (kind : String) (args : String) (delay : Nat) (retry_policy : RetryPolicy) :
    TaskService × Task :=
  let task := Task.create now id (some kind) args delay retry_policy
  ({ s with task_repository := s.task_repository.add_task task }, task)

/-- `TaskService.task(task_id)` (task_service.py lines 45–51). -/
def TaskService.task (s : TaskService) (task_id : String) : Except TaskError Task :=
  s.task_repository.get_task task_id

/-- `TaskService.deletable_tasks(cleanup_policy)` (task_service.py lines
53–56). -/
def TaskService.deletable_tasks (s : TaskService) (cleanup_policy : CleanupPolicy)
    (now : Nat) : List Task :=
  s.task_repository.list_tasks
    (TaskIsDeletable.is_satisfied_by { now := now, cleanup_policy := cleanup_policy })

/-- `TaskService.delete_task(task_id)` (task_service.py lines 58–64):
delegates directly to the repository. -/
def TaskService.delete_task (s : TaskService) (task_id : String) :
    Except TaskError TaskService :=
  match s.task_repository.delete_task task_id with
  | Except.error e => Except.error e
  | Except.ok repo => Except.ok { s with task_repository := repo }

/-- `TaskService.executable_tasks()` (task_service.py lines 66–73): lists via
`TaskIsExecutable` built from the current time and the registry's currently
registered kinds. -/
def TaskService.executable_tasks (s : TaskService) (now : Nat) : List Task :=
  s.task_repository.list_tasks
    (TaskIsExecutable.is_satisfied_by
      { now := now, allowed_kinds := some s.task_handler_registry.task_kinds })

/-- `TaskService.execute_task(task_id)` (task_service.py lines 75–97): inside
the `update_task` scope, the handler is resolved from the registry by
`task.kind` — a failed lookup raises `TaskHandlerNotFound(task.kind)` before
`begin_execution` — then `begin_execution` at the first clock read, the
handler with any fault caught and formatted, and `end_execution` at the
second clock read. -/
def TaskService.execute_task (s : TaskService) (task_id : String)
    (now₁ now₂ : Nat) : TaskService × Except TaskError Task :=
  let r := s.task_repository.update_task task_id (fun task =>
    match s.task_handler_registry.task_handler task.kind with
    | none => (task, Except.error (TaskError.TaskHandlerNotFound task.kind))
    | some task_handler =>
      match task.begin_execution now₁ with
      | Except.error e => (task, Except.error e)
      | Except.ok task' =>
        let error : Option String := (task_handler.handle_task task').map formatExc
        (task'.end_execution now₂ error, Except.ok ()))
  ({ s with task_repository := r.1 }, r.2)

/-! ## Association-list helper lemmas -/

theorem findTask_setTask_self (l : List (String × Task)) (id : String)
    (t t' : Task) (h : findTask l id = some t) :
    findTask (setTask l id t') id = some t' := by
  induction l with
  | nil => simp [findTask] at h
  | cons p rest ih =>
    obtain ⟨k, u⟩ := p
    by_cases hk : k = id
    · simp [findTask, setTask, hk]
    · simp only [findTask, setTask, if_neg hk] at h ⊢
      exact ih h

theorem findTask_removeTask_self (l : List (String × Task)) (id : String) :
    findTask (removeTask l id) id = none := by
  induction l with
  | nil => rfl
  | cons p rest ih =>
    obtain ⟨k, u⟩ := p
    by_cases hk : k = id
    · simp [removeTask, hk, ih]
    · simp [removeTask, findTask, hk, ih]

/-! ## Concrete fixtures used by the witness theorems -/

/-- A concrete retry policy: constant 5-unit backoff, at most 2 attempts. -/
def rpW : RetryPolicy :=
  { next_delay := fun _ => 5, is_exhausted := fun n => decide (2 ≤ n) }

/-- A concrete cleanup policy: 100-unit retention window. -/
def cpW : CleanupPolicy :=
  { is_expired := fun f now => decide (f + 100 ≤ now) }

/-- A concrete pending task of kind `email`, ready at time 0. -/
def taskW : Task := Task.create 0 "t1" (some "email") "payload" 0 rpW

/-- A concrete repository holding `taskW` under id `t1`, no lock held. -/
def repoW : TaskRepository := { tasks := [("t1", taskW)], locked := [] }

/-- A concrete handler for kind `email` that always succeeds. -/
def handlerW : TaskHandler := { kind := "email", handle_task := fun _ => none }

/-- `taskW` after a successful `begin_execution` at time 0. -/
def taskW1 : Task :=
  { taskW with
    state := TaskState.Active
    started_at := some 0
    attempt_count := 1 }

/-- A concrete repository whose only task's lock is currently held. -/
def repoLockedW : TaskRepository := { tasks := [("t1", taskW)], locked := ["t1"] }

/-- A concrete delayed task: created at 0, ready only at time 5. -/
def taskDelayedW : Task := Task.create 0 "t2" (some "email") "payload" 5 rpW

/-- A concrete repository holding the delayed task. -/
def repoDelayedW : TaskRepository := { tasks := [("t2", taskDelayedW)], locked := [] }

/-- A concrete executor that always returns normally. -/
def okExecutorW : TaskExecutor := fun _ => none

/-- A concrete fault. -/
def excW : Exc :=
  { typeName := "ValueError"
    stackFrames := ["  File q, line 1, in h\n"]
    message := "boom" }

/-- A concrete executor that always raises `excW`. -/
def failExecutorW : TaskExecutor := fun _ => some excW

/-- A concrete service whose registry is empty. -/
def serviceEmptyW : TaskService :=
  { task_repository := repoW, task_handler_registry := { handlers := [] } }

/-- A concrete service whose registry maps `email` to `handlerW`. -/
def serviceW : TaskService :=
  { task_repository := repoW
    task_handler_registry := { handlers := [("email", handlerW)] } }

/-- A concrete queue over `repoW`. -/
def queueW : Queue :=
  { task_repository := repoW, retry_policy := rpW, cleanup_policy := cpW }

/-- A concrete queue whose only task's lock is held. -/
def queueLockedW : Queue :=
  { task_repository := repoLockedW, retry_policy := rpW, cleanup_policy := cpW }

/-- A concrete queue holding only the delayed task. -/
def queueDelayedW : Queue :=
  { task_repository := repoDelayedW, retry_policy := rpW, cleanup_policy := cpW }

/-- A concrete service whose only task's lock is held. -/
def serviceLockedW : TaskService :=
  { task_repository := repoLockedW
    task_handler_registry := { handlers := [("email", handlerW)] } }

/-- A concrete service holding only the delayed task. -/
def serviceDelayedW : TaskService :=
  { task_repository := repoDelayedW
    task_handler_registry := { handlers := [("email", handlerW)] } }

/-! ## Claims -/

/-- C1: a call to `TaskService.execute_task` on a task whose kind has no
registered handler fails with `TaskHandlerNotFound` before `begin_execution`
is invoked: the task persisted at scope exit is exactly the task that was
found, so its state, attempt count and readiness are unchanged, and the lock
set is as before the call, so the task is immediately re-lockable. -/
theorem execute_task_handler_not_found (s : TaskService) (id : String)
    (now₁ now₂ : Nat) (t : Task)
    (hunlocked : s.task_repository.locked.contains id = false)
    (hfound : findTask s.task_repository.tasks id = some t)
    (hnohandler : s.task_handler_registry.task_handler t.kind = none) :
    (s.execute_task id now₁ now₂).2 =
      Except.error (TaskError.TaskHandlerNotFound t.kind) ∧
    findTask (s.execute_task id now₁ now₂).1.task_repository.tasks id = some t ∧
    (s.execute_task id now₁ now₂).1.task_repository.locked =
      s.task_repository.locked ∧
    (s.execute_task id now₁ now₂).1.task_repository.locked.contains id = false := by
  simp only [TaskService.execute_task, TaskRepository.update_task, hunlocked,
    Bool.false_eq_true, if_false, hfound, hnohandler]
  refine ⟨?_, ?_, ?_, ?_⟩ <;>
    first
    | exact findTask_setTask_self _ _ _ _ hfound
    | exact hunlocked
    | trivial

/-- Witness for C1: on the concrete service with an empty registry, executing
task `t1` fails with `TaskHandlerNotFound "email"` and leaves the stored task
and the lock set unchanged. -/
theorem execute_task_handler_not_found_witness :
    (serviceEmptyW.execute_task "t1" 0 0).2 =
      Except.error (TaskError.TaskHandlerNotFound taskW.kind) ∧
    findTask (serviceEmptyW.execute_task "t1" 0 0).1.task_repository.tasks "t1" =
      some taskW ∧
    (serviceEmptyW.execute_task "t1" 0 0).1.task_repository.locked =
      serviceEmptyW.task_repository.locked ∧
    (serviceEmptyW.execute_task "t1" 0 0).1.task_repository.locked.contains "t1" =
      false :=
  execute_task_handler_not_found serviceEmptyW "t1" 0 0 taskW rfl rfl rfl

/-- C2: in every execution of `Queue.execute_task` or
`TaskService.execute_task` in which `begin_execution` succeeds, the call
returns normally whatever the handler or executor does: a raised fault is
caught, converted via `formatExc` to a diagnostic string, and passed to
`end_execution`; no handler-raised fault propagates to the caller. -/
theorem execute_task_fault_contained :
    (∀ (q : Queue) (id : String) (ex : TaskExecutor) (now₁ now₂ : Nat)
       (t t' : Task),
       q.task_repository.locked.contains id = false →
       findTask q.task_repository.tasks id = some t →
       t.begin_execution now₁ = Except.ok t' →
       (q.execute_task id ex now₁ now₂).2 =
         Except.ok (t'.end_execution now₂ ((ex t').map formatExc))) ∧
    (∀ (s : TaskService) (id : String) (now₁ now₂ : Nat) (t : Task)
       (h : TaskHandler) (t' : Task),
       s.task_repository.locked.contains id = false →
       findTask s.task_repository.tasks id = some t →
       s.task_handler_registry.task_handler t.kind = some h →
       t.begin_execution now₁ = Except.ok t' →
       (s.execute_task id now₁ now₂).2 =
         Except.ok (t'.end_execution now₂ ((h.handle_task t').map formatExc))) := by
  constructor
  · intro q id ex now₁ now₂ t t' hU hF hB
    have hU' : id ∉ q.task_repository.locked := by simpa using hU
    simp [Queue.execute_task, TaskRepository.update_task, hU', hF, hB]
  · intro s id now₁ now₂ t h t' hU hF hH hB
    have hU' : id ∉ s.task_repository.locked := by simpa using hU
    simp [TaskService.execute_task, TaskRepository.update_task, hU', hF, hH, hB]

/-- Witness for C2: on the concrete queue, an executor that raises `excW`
still yields a normal return carrying the post-`end_execution` task. -/
theorem execute_task_fault_contained_witness :
    (queueW.execute_task "t1" failExecutorW 0 7).2 =
      Except.ok (taskW1.end_execution 7 ((failExecutorW taskW1).map formatExc)) :=
  execute_task_fault_contained.1 queueW "t1" failExecutorW 0 7 taskW taskW1
    rfl rfl rfl

/-- C3: in every execution of either orchestrator's `execute_task` in which
lock acquisition and `begin_execution` succeed, the result is the single
application of `end_execution` at the second clock read — with error `none`
exactly when the handler invocation returned normally, and the diagnostic
string otherwise — and the returned task is the task persisted in the
repository at scope exit, reflecting its post-`end_execution` state. -/
theorem execute_task_end_execution_once :
    (∀ (q : Queue) (id : String) (ex : TaskExecutor) (now₁ now₂ : Nat)
       (t t' : Task),
       q.task_repository.locked.contains id = false →
       findTask q.task_repository.tasks id = some t →
       t.begin_execution now₁ = Except.ok t' →
       ((q.execute_task id ex now₁ now₂).2 =
          Except.ok (t'.end_execution now₂ ((ex t').map formatExc)) ∧
        findTask (q.execute_task id ex now₁ now₂).1.task_repository.tasks id =
          some (t'.end_execution now₂ ((ex t').map formatExc)) ∧
        ((ex t').map formatExc = none ↔ ex t' = none))) ∧
    (∀ (s : TaskService) (id : String) (now₁ now₂ : Nat) (t : Task)
       (h : TaskHandler) (t' : Task),
       s.task_repository.locked.contains id = false →
       findTask s.task_repository.tasks id = some t →
       s.task_handler_registry.task_handler t.kind = some h →
       t.begin_execution now₁ = Except.ok t' →
       ((s.execute_task id now₁ now₂).2 =
          Except.ok (t'.end_execution now₂ ((h.handle_task t').map formatExc)) ∧
        findTask (s.execute_task id now₁ now₂).1.task_repository.tasks id =
          some (t'.end_execution now₂ ((h.handle_task t').map formatExc)) ∧
        ((h.handle_task t').map formatExc = none ↔ h.handle_task t' = none))) := by
  constructor
  · intro q id ex now₁ now₂ t t' hU hF hB
    have hU' : id ∉ q.task_repository.locked := by simpa using hU
    refine ⟨?_, ?_, ?_⟩
    · simp [Queue.execute_task, TaskRepository.update_task, hU', hF, hB]
    · simp only [Queue.execute_task, TaskRepository.update_task, hU,
        Bool.false_eq_true, if_false, hF, hB]
      exact findTask_setTask_self _ _ _ _ hF
    · exact Option.map_eq_none'
  · intro s id now₁ now₂ t h t' hU hF hH hB
    have hU' : id ∉ s.task_repository.locked := by simpa using hU
    refine ⟨?_, ?_, ?_⟩
    · simp [TaskService.execute_task, TaskRepository.update_task, hU', hF, hH, hB]
    · simp only [TaskService.execute_task, TaskRepository.update_task, hU,
        Bool.false_eq_true, if_false, hF, hH, hB]
      exact findTask_setTask_self _ _ _ _ hF
    · exact Option.map_eq_none'

/-- Witness for C3: on the concrete service with a registered handler that
returns normally, executing `t1` yields the completed task, the repository
stores it, and the recorded error is `none`. -/
theorem execute_task_end_execution_once_witness :
    ((serviceW.execute_task "t1" 0 7).2 =
       Except.ok (taskW1.end_execution 7 ((handlerW.handle_task taskW1).map formatExc)) ∧
     findTask (serviceW.execute_task "t1" 0 7).1.task_repository.tasks "t1" =
       some (taskW1.end_execution 7 ((handlerW.handle_task taskW1).map formatExc)) ∧
     ((handlerW.handle_task taskW1).map formatExc = none ↔
       handlerW.handle_task taskW1 = none)) :=
  execute_task_end_execution_once.2 serviceW "t1" 0 7 taskW handlerW taskW1
    rfl rfl rfl rfl

/-- C4: `TaskNotFound` and `TaskLocked` from `update_task`, and
`TaskNotActive`/`TaskNotReady` from `begin_execution`, propagate unmodified
from `execute_task` on either orchestrator, with no internal retry; on a
lock or lookup failure the whole orchestrator is unchanged, and on a
`begin_execution` failure the handler is never invoked (the queue's result
does not depend on the executor at all) and `end_execution` is never called,
so the task persisted when the scope releases the lock is exactly the
original one. -/
theorem execute_task_error_propagation :
    (∀ (q : Queue) (id : String) (ex : TaskExecutor) (now₁ now₂ : Nat),
       q.task_repository.locked.contains id = true →
       q.execute_task id ex now₁ now₂ = (q, Except.error TaskError.TaskLocked)) ∧
    (∀ (q : Queue) (id : String) (ex : TaskExecutor) (now₁ now₂ : Nat),
       q.task_repository.locked.contains id = false →
       findTask q.task_repository.tasks id = none →
       q.execute_task id ex now₁ now₂ = (q, Except.error TaskError.TaskNotFound)) ∧
    (∀ (q : Queue) (id : String) (ex : TaskExecutor) (now₁ now₂ : Nat)
       (t : Task) (e : TaskError),
       q.task_repository.locked.contains id = false →
       findTask q.task_repository.tasks id = some t →
       t.begin_execution now₁ = Except.error e →
       ((q.execute_task id ex now₁ now₂).2 = Except.error e ∧
        findTask (q.execute_task id ex now₁ now₂).1.task_repository.tasks id =
          some t ∧
        (∀ ex' : TaskExecutor,
          q.execute_task id ex' now₁ now₂ = q.execute_task id ex now₁ now₂))) ∧
    (∀ (s : TaskService) (id : String) (now₁ now₂ : Nat),
       s.task_repository.locked.contains id = true →
       s.execute_task id now₁ now₂ = (s, Except.error TaskError.TaskLocked)) ∧
    (∀ (s : TaskService) (id : String) (now₁ now₂ : Nat),
       s.task_repository.locked.contains id = false →
       findTask s.task_repository.tasks id = none →
       s.execute_task id now₁ now₂ = (s, Except.error TaskError.TaskNotFound)) ∧
    (∀ (s : TaskService) (id : String) (now₁ now₂ : Nat) (t : Task)
       (h : TaskHandler) (e : TaskError),
       s.task_repository.locked.contains id = false →
       findTask s.task_repository.tasks id = some t →
       s.task_handler_registry.task_handler t.kind = some h →
       t.begin_execution now₁ = Except.error e →
       ((s.execute_task id now₁ now₂).2 = Except.error e ∧
        findTask (s.execute_task id now₁ now₂).1.task_repository.tasks id =
          some t)) := by
  refine ⟨?_, ?_, ?_, ?_, ?_, ?_⟩
  · intro q id ex now₁ now₂ hL
    have hL' : id ∈ q.task_repository.locked := by simpa using hL
    simp [Queue.execute_task, TaskRepository.update_task, hL']
  · intro q id ex now₁ now₂ hU hF
    have hU' : id ∉ q.task_repository.locked := by simpa using hU
    simp [Queue.execute_task, TaskRepository.update_task, hU', hF]
  · intro q id ex now₁ now₂ t e hU hF hB
    have hU' : id ∉ q.task_repository.locked := by simpa using hU
    refine ⟨?_, ?_, ?_⟩
    · simp [Queue.execute_task, TaskRepository.update_task, hU', hF, hB]
    · simp only [Queue.execute_task, TaskRepository.update_task, hU,
        Bool.false_eq_true, if_false, hF, hB]
      exact findTask_setTask_self _ _ _ _ hF
    · intro ex'
      simp [Queue.execute_task, TaskRepository.update_task, hU', hF, hB]
  · intro s id now₁ now₂ hL
    have hL' : id ∈ s.task_repository.locked := by simpa using hL
    simp [TaskService.execute_task, TaskRepository.update_task, hL']
  · intro s id now₁ now₂ hU hF
    have hU' : id ∉ s.task_repository.locked := by simpa using hU
    simp [TaskService.execute_task, TaskRepository.update_task, hU', hF]
  · intro s id now₁ now₂ t h e hU hF hH hB
    have hU' : id ∉ s.task_repository.locked := by simpa using hU
    refine ⟨?_, ?_⟩
    · simp [TaskService.execute_task, TaskRepository.update_task, hU', hF, hH, hB]
    · simp only [TaskService.execute_task, TaskRepository.update_task, hU,
        Bool.false_eq_true, if_false, hF, hH, hB]
      exact findTask_setTask_self _ _ _ _ hF

/-- Witness for C4: the locked queue fails with `TaskLocked` unchanged, an
unknown id fails with `TaskNotFound` unchanged, and executing the delayed
task at time 0 fails with `TaskNotReady` leaving the stored task intact. -/
theorem execute_task_error_propagation_witness :
    (queueLockedW.execute_task "t1" okExecutorW 0 0 =
       (queueLockedW, Except.error TaskError.TaskLocked)) ∧
    (queueW.execute_task "zz" okExecutorW 0 0 =
       (queueW, Except.error TaskError.TaskNotFound)) ∧
    ((queueDelayedW.execute_task "t2" okExecutorW 0 0).2 =
       Except.error TaskError.TaskNotReady ∧
     findTask (queueDelayedW.execute_task "t2" okExecutorW 0 0).1.task_repository.tasks "t2" =
       some taskDelayedW) ∧
    (serviceLockedW.execute_task "t1" 0 0 =
       (serviceLockedW, Except.error TaskError.TaskLocked)) ∧
    ((serviceDelayedW.execute_task "t2" 0 0).2 =
       Except.error TaskError.TaskNotReady ∧
     findTask (serviceDelayedW.execute_task "t2" 0 0).1.task_repository.tasks "t2" =
       some taskDelayedW) :=
  ⟨execute_task_error_propagation.1 queueLockedW "t1" okExecutorW 0 0 rfl,
   execute_task_error_propagation.2.1 queueW "zz" okExecutorW 0 0 rfl rfl,
   ⟨(execute_task_error_propagation.2.2.1 queueDelayedW "t2" okExecutorW 0 0
       taskDelayedW TaskError.TaskNotReady rfl rfl rfl).1,
    (execute_task_error_propagation.2.2.1 queueDelayedW "t2" okExecutorW 0 0
       taskDelayedW TaskError.TaskNotReady rfl rfl rfl).2.1⟩,
   execute_task_error_propagation.2.2.2.1 serviceLockedW "t1" 0 0 rfl,
   execute_task_error_propagation.2.2.2.2.2 serviceDelayedW "t2" 0 0
     taskDelayedW handlerW TaskError.TaskNotReady rfl rfl rfl rfl⟩

/-- C6: for every payload and non-negative delay, `create_task` on either
orchestrator returns a task with state `Pending`, `ready_at = now + delay`
and `attempt_count = 0`, and that task is stored in the repository (under its
fresh id) before the call returns. -/
theorem create_task_pending_ready_stored :
    (∀ (q : Queue) (now : Nat) (id args : String) (delay : Nat)
       (rp : Option RetryPolicy),
       (q.create_task now id args delay rp).2.state = TaskState.Pending ∧
       (q.create_task now id args delay rp).2.ready_at = now + delay ∧
       (q.create_task now id args delay rp).2.attempt_count = 0 ∧
       findTask (q.create_task now id args delay rp).1.task_repository.tasks id =
         some (q.create_task now id args delay rp).2) ∧
    (∀ (s : TaskService) (now : Nat) (id kind args : String) (delay : Nat)
       (rp : RetryPolicy),
       (s.create_task now id kind args delay rp).2.state = TaskState.Pending ∧
       (s.create_task now id kind args delay rp).2.ready_at = now + delay ∧
       (s.create_task now id kind args delay rp).2.attempt_count = 0 ∧
       findTask (s.create_task now id kind args delay rp).1.task_repository.tasks id =
         some (s.create_task now id kind args delay rp).2) := by
  constructor
  · intro q now id args delay rp
    refine ⟨rfl, rfl, rfl, ?_⟩
    simp [Queue.create_task, TaskRepository.add_task, Task.create, findTask]
  · intro s now id kind args delay rp
    refine ⟨rfl, rfl, rfl, ?_⟩
    simp [TaskService.create_task, TaskRepository.add_task, Task.create, findTask]

/-- C9: `Queue.create_task` binds the queue's own configured retry policy
when the `retry_policy` argument is `None`, and the supplied one when it is
given; `TaskService.create_task` has no default and binds exactly the retry
policy the caller must supply. -/
theorem create_task_retry_policy_binding :
    (∀ (q : Queue) (now : Nat) (id args : String) (delay : Nat),
       (q.create_task now id args delay none).2.retry_policy = q.retry_policy) ∧
    (∀ (q : Queue) (now : Nat) (id args : String) (delay : Nat)
       (rp : RetryPolicy),
       (q.create_task now id args delay (some rp)).2.retry_policy = rp) ∧
    (∀ (s : TaskService) (now : Nat) (id kind args : String) (delay : Nat)
       (rp : RetryPolicy),
       (s.create_task now id kind args delay rp).2.retry_policy = rp) :=
  ⟨fun _ _ _ _ _ => rfl, fun _ _ _ _ _ _ => rfl, fun _ _ _ _ _ _ _ => rfl⟩

/-- C5: `TaskService.executable_tasks` lists exactly the stored tasks that
are `Pending`, ready at the current time, and whose kind is currently
registered (the `TaskIsExecutable` specification it builds carries
`allowed_kinds` = the registry's registered kinds, so a task with an
unregistered — or absent — kind is never listed); `Queue.find_executable_tasks`
builds `TaskIsExecutable` from the current time alone, with no kind filter. -/
theorem executable_tasks_kind_filter :
    (∀ (s : TaskService) (now : Nat) (t : Task),
       t ∈ s.executable_tasks now ↔
         (t ∈ s.task_repository.tasks.map Prod.snd ∧
          t.state = TaskState.Pending ∧ t.ready_at ≤ now ∧
          ∃ k, t.kind = some k ∧ k ∈ s.task_handler_registry.task_kinds)) ∧
    (∀ (q : Queue) (now : Nat) (t : Task),
       t ∈ q.find_executable_tasks now ↔
         (t ∈ q.task_repository.tasks.map Prod.snd ∧
          t.state = TaskState.Pending ∧ t.ready_at ≤ now)) := by
  constructor
  · intro s now t
    cases hk : t.kind with
    | none =>
      simp [TaskService.executable_tasks, TaskRepository.list_tasks,
        TaskIsExecutable.is_satisfied_by, List.mem_filter, hk]
    | some k =>
      simp [TaskService.executable_tasks, TaskRepository.list_tasks,
        TaskIsExecutable.is_satisfied_by, List.mem_filter, hk, List.elem_iff,
        and_assoc]
  · intro q now t
    simp [Queue.find_executable_tasks, TaskRepository.list_tasks,
      TaskIsExecutable.is_satisfied_by, List.mem_filter, and_assoc]

/-- Witness for C5: the concrete pending task of kind `email` is listed by
the service exactly because its kind is registered there. -/
theorem executable_tasks_kind_filter_witness :
    taskW ∈ serviceW.executable_tasks 0 ↔
      (taskW ∈ serviceW.task_repository.tasks.map Prod.snd ∧
       taskW.state = TaskState.Pending ∧ taskW.ready_at ≤ 0 ∧
       ∃ k, taskW.kind = some k ∧
         k ∈ serviceW.task_handler_registry.task_kinds) :=
  executable_tasks_kind_filter.1 serviceW 0 taskW

/-- C7: for a stored task whose kind resolves to a registered handler,
`TaskService.execute_task` is extensionally the run of `Queue.execute_task`
with that handler's `handle_task` as the executor, over the same repository:
lock acquisition, `begin_execution`, fault-capturing handler invocation and
`end_execution` happen identically, so the final repository and the returned
result coincide. -/
theorem execute_task_refinement (s : TaskService) (rp : RetryPolicy)
    (cp : CleanupPolicy) (id : String) (now₁ now₂ : Nat) (t : Task)
    (h : TaskHandler)
    (hfound : findTask s.task_repository.tasks id = some t)
    (hhandler : s.task_handler_registry.task_handler t.kind = some h) :
    (s.execute_task id now₁ now₂).1.task_repository =
      ((Queue.mk s.task_repository rp cp).execute_task id
        h.handle_task now₁ now₂).1.task_repository ∧
    (s.execute_task id now₁ now₂).2 =
      ((Queue.mk s.task_repository rp cp).execute_task id
        h.handle_task now₁ now₂).2 := by
  by_cases hl : id ∈ s.task_repository.locked
  · constructor <;>
      simp [TaskService.execute_task, Queue.execute_task,
        TaskRepository.update_task, hl]
  · constructor <;>
      simp [TaskService.execute_task, Queue.execute_task,
        TaskRepository.update_task, hl, hfound, hhandler]

/-- Witness for C7: on the concrete service, executing `t1` agrees with the
queue run that uses the registered handler's `handle_task` directly. -/
theorem execute_task_refinement_witness :
    (serviceW.execute_task "t1" 0 7).1.task_repository =
      ((Queue.mk serviceW.task_repository rpW cpW).execute_task "t1"
        handlerW.handle_task 0 7).1.task_repository ∧
    (serviceW.execute_task "t1" 0 7).2 =
      ((Queue.mk serviceW.task_repository rpW cpW).execute_task "t1"
        handlerW.handle_task 0 7).2 :=
  execute_task_refinement serviceW rpW cpW "t1" 0 7 taskW handlerW rfl rfl

/-- C8: `delete_task` on either orchestrator delegates directly to the
repository with no deletability-predicate check: it fails with
`TaskNotFound` exactly when the id is absent, and otherwise removes the
stored task whatever its state — the stored task `t` below is arbitrary, so
`Pending` and `Active` tasks are covered. -/
theorem delete_task_no_predicate_check :
    (∀ (q : Queue) (id : String),
       findTask q.task_repository.tasks id = none →
       q.delete_task id = Except.error TaskError.TaskNotFound) ∧
    (∀ (q : Queue) (id : String) (t : Task),
       findTask q.task_repository.tasks id = some t →
       ∃ q', q.delete_task id = Except.ok q' ∧
         findTask q'.task_repository.tasks id = none) ∧
    (∀ (s : TaskService) (id : String),
       findTask s.task_repository.tasks id = none →
       s.delete_task id = Except.error TaskError.TaskNotFound) ∧
    (∀ (s : TaskService) (id : String) (t : Task),
       findTask s.task_repository.tasks id = some t →
       ∃ s', s.delete_task id = Except.ok s' ∧
         findTask s'.task_repository.tasks id = none) := by
  refine ⟨?_, ?_, ?_, ?_⟩
  · intro q id hF
    simp [Queue.delete_task, TaskRepository.delete_task, hF]
  · intro q id t hF
    refine ⟨{ q with task_repository :=
      { q.task_repository with tasks := removeTask q.task_repository.tasks id } },
      ?_, ?_⟩
    · simp [Queue.delete_task, TaskRepository.delete_task, hF]
    · exact findTask_removeTask_self _ _
  · intro s id hF
    simp [TaskService.delete_task, TaskRepository.delete_task, hF]
  · intro s id t hF
    refine ⟨{ s with task_repository :=
      { s.task_repository with tasks := removeTask s.task_repository.tasks id } },
      ?_, ?_⟩
    · simp [TaskService.delete_task, TaskRepository.delete_task, hF]
    · exact findTask_removeTask_self _ _

/-- Witness for C8: deleting the unknown id `zz` fails with `TaskNotFound`,
while deleting the stored task `t1` — which is `Pending`, not terminal —
succeeds on both orchestrators and leaves the id unresolvable. -/
theorem delete_task_no_predicate_check_witness :
    (queueW.delete_task "zz" = Except.error TaskError.TaskNotFound) ∧
    (∃ q', queueW.delete_task "t1" = Except.ok q' ∧
       findTask q'.task_repository.tasks "t1" = none) ∧
    (serviceW.delete_task "zz" = Except.error TaskError.TaskNotFound) ∧
    (∃ s', serviceW.delete_task "t1" = Except.ok s' ∧
       findTask s'.task_repository.tasks "t1" = none) :=
  ⟨delete_task_no_predicate_check.1 queueW "zz" rfl,
   delete_task_no_predicate_check.2.1 queueW "t1" taskW rfl,
   delete_task_no_predicate_check.2.2.1 serviceW "zz" rfl,
   delete_task_no_predicate_check.2.2.2 serviceW "t1" taskW rfl⟩

/-- C10: when the handler raises, the diagnostic passed to `end_execution`
(and recorded as `last_error`) on either orchestrator is the full formatted
traceback of the fault — `formatExc`, the model of
`traceback.format_exc()` — which is non-empty, contains the exception type
and the stack frames, and is strictly longer than the bare exception
message, hence never merely the message. -/
theorem execute_task_diagnostic_full_traceback :
    (∀ (q : Queue) (id : String) (ex : TaskExecutor) (now₁ now₂ : Nat)
       (t t' : Task) (e : Exc),
       q.task_repository.locked.contains id = false →
       findTask q.task_repository.tasks id = some t →
       t.begin_execution now₁ = Except.ok t' →
       ex t' = some e →
       ((q.execute_task id ex now₁ now₂).2 =
          Except.ok (t'.end_execution now₂ (some (formatExc e))) ∧
        (t'.end_execution now₂ (some (formatExc e))).last_error =
          some (formatExc e))) ∧
    (∀ (s : TaskService) (id : String) (now₁ now₂ : Nat) (t : Task)
       (h : TaskHandler) (t' : Task) (e : Exc),
       s.task_repository.locked.contains id = false →
       findTask s.task_repository.tasks id = some t →
       s.task_handler_registry.task_handler t.kind = some h →
       t.begin_execution now₁ = Except.ok t' →
       h.handle_task t' = some e →
       ((s.execute_task id now₁ now₂).2 =
          Except.ok (t'.end_execution now₂ (some (formatExc e))) ∧
        (t'.end_execution now₂ (some (formatExc e))).last_error =
          some (formatExc e))) ∧
    (∀ e : Exc,
       formatExc e ≠ "" ∧
       e.message.length < (formatExc e).length ∧
       (∃ s₁ s₂, formatExc e = s₁ ++ (e.typeName ++ s₂)) ∧
       (∃ s₁ s₂, formatExc e = s₁ ++ (String.join e.stackFrames ++ s₂))) := by
  refine ⟨?_, ?_, ?_⟩
  · intro q id ex now₁ now₂ t t' e hU hF hB hE
    have hU' : id ∉ q.task_repository.locked := by simpa using hU
    constructor
    · simp [Queue.execute_task, TaskRepository.update_task, hU', hF, hB, hE]
    · simp only [Task.end_execution]
      split <;> rfl
  · intro s id now₁ now₂ t h t' e hU hF hH hB hE
    have hU' : id ∉ s.task_repository.locked := by simpa using hU
    constructor
    · simp [TaskService.execute_task, TaskRepository.update_task, hU', hF,
        hH, hB, hE]
    · simp only [Task.end_execution]
      split <;> rfl
  · intro e
    have h35 : ("Traceback (most recent call last):\n" : String).length = 35 := by
      decide
    have h2 : (": " : String).length = 2 := by decide
    have hlen : (formatExc e).length =
        35 + (String.join e.stackFrames).length + e.typeName.length + 2 +
          e.message.length := by
      simp only [formatExc, String.length_append, h35, h2]
    refine ⟨?_, ?_, ?_, ?_⟩
    · intro hnil
      have hz := congrArg String.length hnil
      rw [hlen] at hz
      simp at hz
    · rw [hlen]
      omega
    · exact ⟨"Traceback (most recent call last):\n" ++ String.join e.stackFrames,
        ": " ++ e.message, by simp [formatExc, String.append_assoc]⟩
    · exact ⟨"Traceback (most recent call last):\n",
        e.typeName ++ (": " ++ e.message), by simp [formatExc, String.append_assoc]⟩

/-- Witness for C10: on the concrete queue with an executor raising `excW`,
the completed run records the formatted traceback, and the concrete
`formatExc excW` facts hold. -/
theorem execute_task_diagnostic_full_traceback_witness :
    ((queueW.execute_task "t1" failExecutorW 0 7).2 =
       Except.ok (taskW1.end_execution 7 (some (formatExc excW))) ∧
     (taskW1.end_execution 7 (some (formatExc excW))).last_error =
       some (formatExc excW)) ∧
    (formatExc excW ≠ "" ∧
     excW.message.length < (formatExc excW).length ∧
     (∃ s₁ s₂, formatExc excW = s₁ ++ (excW.typeName ++ s₂)) ∧
     (∃ s₁ s₂, formatExc excW = s₁ ++ (String.join excW.stackFrames ++ s₂))) :=
  ⟨execute_task_diagnostic_full_traceback.1 queueW "t1" failExecutorW 0 7
     taskW taskW1 excW rfl rfl rfl rfl,
   execute_task_diagnostic_full_traceback.2.2 excW⟩

end Flockq
